import Mathlib

/-!
Verification of the conch-shell command-line client (Go) against its
natural-language specification.

The development shallowly embeds the parts of the code the claims are about:

* the version-normalization and version-negotiation logic of `pkg/util`
  (`CleanVersion`, `BuildAPI`) together with a model of the vendored
  `blang/semver` parser and comparison;
* the rack-role accessors of `pkg/conch` (`SaveGlobalRackRole`,
  `GetGlobalRackRoles`) and the generic response handling (`isHTTPResOk`);
* the rack-layout import command (`rackImportLayout` in
  `pkg/commands/internal/global/...`, included here as
  `src/pkg/conch/user.go`);
* the device output formatter (`DisplayDevices`, `TableizeMinimalDevices`).

Strings are embedded as Lean `String`s; the string-processing code works on
`List Char` (`String.data`) so that the Go `strings` functions become list
functions. Go `time.Time` values are embedded as abstract instants (`Nat`),
with the zero value `0` standing for Go's zero time; the only properties of
Go's date formatting used are that it is a function of the instant and never
renders the empty string, which the concrete `TimeStr` below realizes.
Functions that panic in Go (`semver.MustParse`) return `Option`, with `none`
modelling the panic.
-/

namespace ConchShell

/-! ## Semantic versions (vendored `blang/semver` dependency)

`CleanVersion` discards everything from the first `-` on before parsing, so
versions compared by this client never carry pre-release identifiers; the
model therefore restricts `semver.Version` to the `major.minor.patch` core
(plus build-metadata validation, which does not participate in ordering).
-/

/-- A parsed semantic version: the `major.minor.patch` core of
`blang/semver`'s `Version`. -/
structure SemVer where
  major : Nat
  minor : Nat
  patch : Nat
deriving DecidableEq, Repr

/-- Bool test used by the embedded `strings.TrimLeft(version, "v")`. -/
def isV (c : Char) : Bool := c == 'v'

/-- Bool test used by the embedded `strings.Split(s, "-")[0]`. -/
def notDash (c : Char) : Bool := c != '-'

/-- Numeric component of a semantic version, as validated by
`blang/semver`'s `Parse`: non-empty, digits only, no leading zeroes. -/
def parseNumPart (l : List Char) : Option Nat :=
  if l = [] then none
  else if ¬ l.all Char.isDigit then none
  else if l.head? = some '0' ∧ 1 < l.length then none
  else some (l.foldl (fun acc c => 10 * acc + (c.toNat - '0'.toNat)) 0)

/-- Characters allowed in a build-metadata identifier by `blang/semver`
(`alphas` includes the dash). -/
def isAlphanumChar (c : Char) : Bool := c.isAlpha || c.isDigit || c == '-'

/-- Validation of the build-metadata section (after `+`) by
`blang/semver`'s `Parse`: dot-separated identifiers, each non-empty and
alphanumeric. -/
def buildPartsOk (l : List Char) : Bool :=
  (l.splitOn '.').all (fun p => !p.isEmpty && p.all isAlphanumChar)

/-- Go's `strings.SplitN(s, sep, 3)` for a one-character separator: at most
three pieces, the third keeping any further separators. -/
def splitN3 (sep : Char) (l : List Char) : List (List Char) :=
  let a := l.takeWhile (fun c => c != sep)
  match l.dropWhile (fun c => c != sep) with
  | [] => [a]
  | _ :: r =>
    let b := r.takeWhile (fun c => c != sep)
    match r.dropWhile (fun c => c != sep) with
    | [] => [a, b]
    | _ :: s => [a, b, s]

/-- Modelled from the vendored `blang/semver` dependency's `Parse` (library
code, not part of this repository's sources): reject the empty string, split
into `major.minor.rest` with `SplitN`, parse major and minor as numeric
components, strip build metadata (after `+`) from the rest and validate it,
and parse the remainder as the numeric patch component. Pre-release
identifiers (after `-`) are not modelled: `CleanVersion` removes everything
from the first dash on, so no dash ever reaches this parser in the embedded
code paths. `none` models a parse error (and hence a `MustParse` panic). -/
def parseSemVer (l : List Char) : Option SemVer :=
  if l = [] then none
  else
    match splitN3 '.' l with
    | [a, b, c] =>
      match parseNumPart a, parseNumPart b with
      | some major, some minor =>
        let patchStr := c.takeWhile (fun x => x != '+')
        let buildOk :=
          match c.dropWhile (fun x => x != '+') with
          | [] => true
          | _ :: bs => buildPartsOk bs
        match parseNumPart patchStr with
        | some patch => if buildOk then some ⟨major, minor, patch⟩ else none
        | none => none
      | _, _ => none
    | _ => none

/-- `blang/semver`'s `Compare`, restricted to versions without pre-release
identifiers (the only ones produced by `CleanVersion`): lexicographic on
(major, minor, patch). -/
def semCompare (a b : SemVer) : Ordering :=
  if a.major ≠ b.major then (if b.major < a.major then .gt else .lt)
  else if a.minor ≠ b.minor then (if b.minor < a.minor then .gt else .lt)
  else if a.patch ≠ b.patch then (if b.patch < a.patch then .gt else .lt)
  else .eq

/-- `Version.LT` of `blang/semver`: `Compare < 0`. -/
def semLT (a b : SemVer) : Bool := semCompare a b == Ordering.lt

/-- `Version.GTE` of `blang/semver`: `Compare >= 0`. -/
def semGTE (a b : SemVer) : Bool := semCompare a b != Ordering.lt

/-! ## `CleanVersion` and the version gate of `BuildAPI` (`pkg/util`) -/

/-- The core of `CleanVersion` on `List Char`:
`strings.Split(strings.TrimLeft(version, "v"), "-")` and `MustParse` of the
first piece. `TrimLeft` drops every leading `'v'`; the first `Split` piece
is the prefix before the first `'-'`. `none` models the `MustParse` panic. -/
def cleanVersionL (l : List Char) : Option SemVer :=
  parseSemVer ((l.dropWhile isV).takeWhile notDash)

/-- `CleanVersion` from `pkg/util` (part_002 lines 158-161). -/
def CleanVersion (s : String) : Option SemVer := cleanVersionL s.data

/-- Result of the two fatal version checks in `BuildAPI`. -/
inductive VersionGate where
  | ok
  | majorMismatch
  | outOfRange
deriving DecidableEq, Repr

/-- The version gate of `BuildAPI` (part_002 lines 740-758): bail when the
major versions differ, then bail when the version is below the minimum or
at/above the breaking version. -/
def versionGate (sem minSem maxSem : SemVer) : VersionGate :=
  if sem.major ≠ minSem.major then .majorMismatch
  else if semLT sem minSem || semGTE sem maxSem then .outOfRange
  else .ok

/-- `DisableApiVersionCheck` (part_002 lines 632-634): the check is disabled
whenever the build-time flag string is not `"0"`. -/
def DisableApiVersionCheck (flagsDisableApiVersionCheck : String) : Bool :=
  flagsDisableApiVersionCheck ≠ "0"

/-- Calls to the server issued by `BuildAPI` after the client record is
populated. -/
inductive APICall where
  | getVersion
deriving DecidableEq, Repr

/-- How `BuildAPI` terminates. `panicked` models a Go panic (from
`semver.MustParse` inside `CleanVersion`); the `bail…` outcomes model the
fatal `Bail` error path. -/
inductive BuildOutcome where
  | ok
  | bailTransport (e : String)
  | bailMajorMismatch
  | bailOutOfRange
  | panicked
deriving DecidableEq, Repr

/-- `BuildAPI` (part_002 lines 700-759), from the `GetVersion` call on: the
version endpoint is called first and a transport error bails; then, only if
the version check is not disabled, the reported version and the two
hardcoded bounds are parsed by `CleanVersion` (a parse failure is a panic)
and the gate is applied. The first component is the trace of
version-endpoint calls issued. -/
def buildAPI (disableCheck : Bool) (getVersionResult : Except String String)
    (minimumAPIVersion breakingAPIVersion : String) :
    List APICall × BuildOutcome :=
  ([APICall.getVersion],
    match getVersionResult with
    | .error e => .bailTransport e
    | .ok version =>
      if disableCheck then .ok
      else
        match CleanVersion version, CleanVersion minimumAPIVersion,
            CleanVersion breakingAPIVersion with
        | some sem, some minSem, some maxSem =>
          match versionGate sem minSem maxSem with
          | .ok => .ok
          | .majorMismatch => .bailMajorMismatch
          | .outOfRange => .bailOutOfRange
        | _, _, _ => .panicked)

/-! ## Spec-side ordering, for comparison with the code's gate -/

/-- The spec's `minimum <= v` relation, stated independently of
`semCompare`: lexicographic order on (major, minor, patch). -/
def specLe (a b : SemVer) : Prop :=
  a.major < b.major ∨
    (a.major = b.major ∧
      (a.minor < b.minor ∨ (a.minor = b.minor ∧ a.patch ≤ b.patch)))

/-- The spec's strict `v < breaking` relation. -/
def specLt (a b : SemVer) : Prop :=
  a.major < b.major ∨
    (a.major = b.major ∧
      (a.minor < b.minor ∨ (a.minor = b.minor ∧ a.patch < b.patch)))

instance (a b : SemVer) : Decidable (specLe a b) := by
  unfold specLe; infer_instance

instance (a b : SemVer) : Decidable (specLt a b) := by
  unfold specLt; infer_instance

theorem semLT_iff_specLt (a b : SemVer) : semLT a b = true ↔ specLt a b := by
  obtain ⟨x, y, z⟩ := a
  obtain ⟨u, v, w⟩ := b
  unfold semLT semCompare specLt
  split_ifs <;>
    simp_all [show (Ordering.gt == Ordering.lt) = false from rfl,
      show (Ordering.lt == Ordering.lt) = true from rfl,
      show (Ordering.eq == Ordering.lt) = false from rfl] <;>
    omega

theorem semGTE_iff_specLe (a b : SemVer) : semGTE a b = true ↔ specLe b a := by
  obtain ⟨x, y, z⟩ := a
  obtain ⟨u, v, w⟩ := b
  unfold semGTE semCompare specLe
  split_ifs <;>
    simp_all [show (Ordering.gt != Ordering.lt) = true from rfl,
      show (Ordering.lt != Ordering.lt) = false from rfl,
      show (Ordering.eq != Ordering.lt) = true from rfl] <;>
    omega

/-! ## Structural lemmas about `cleanVersionL` -/

theorem takeWhile_notDash_append (s rest : List Char) (h : '-' ∉ s) :
    (s ++ '-' :: rest).takeWhile notDash = s.takeWhile notDash := by
  induction s with
  | nil => simp [List.takeWhile, notDash]
  | cons c s ih =>
    simp only [List.mem_cons, not_or] at h
    have hc : notDash c = true := by
      simp [notDash]
      exact fun hcc => h.1 hcc.symm
    simp [List.takeWhile, hc, ih h.2]

theorem cleanVersionL_v_cons (s : List Char) :
    cleanVersionL ('v' :: s) = cleanVersionL s := by
  simp [cleanVersionL, List.dropWhile, isV]

theorem cleanVersionL_dash (s rest : List Char) (h : '-' ∉ s) :
    cleanVersionL (s ++ '-' :: rest) = cleanVersionL s := by
  induction s with
  | nil =>
    simp [cleanVersionL, List.dropWhile, List.takeWhile, isV, notDash]
  | cons c s ih =>
    simp only [List.mem_cons, not_or] at h
    by_cases hv : isV c = true
    · simpa [cleanVersionL, List.dropWhile, hv] using ih h.2
    · have hc : notDash c = true := by
        simp [notDash]
        exact fun hcc => h.1 hcc.symm
      simp [cleanVersionL, List.dropWhile, hv, List.takeWhile, hc,
        takeWhile_notDash_append s rest h.2]

/-! ## Claim theorems: version negotiation -/

/-- C2: with minimum version 2.0.0 and breaking version 3.0.0, the version
gate of client construction accepts a server version `v` exactly when `v`'s
major equals the minimum's major and `minimum ≤ v < breaking`; concretely,
construction rejects server version 1.9.9, accepts 2.5.0 and 2.99.99, and
rejects 3.0.0. -/
theorem C2_version_acceptance :
    (∀ v : SemVer,
      versionGate v ⟨2, 0, 0⟩ ⟨3, 0, 0⟩ = .ok ↔
        (v.major = 2 ∧ specLe ⟨2, 0, 0⟩ v ∧ specLt v ⟨3, 0, 0⟩)) ∧
    buildAPI false (.ok "1.9.9") "2.0.0" "3.0.0"
      = ([.getVersion], .bailMajorMismatch) ∧
    buildAPI false (.ok "2.5.0") "2.0.0" "3.0.0" = ([.getVersion], .ok) ∧
    buildAPI false (.ok "3.0.0") "2.0.0" "3.0.0"
      = ([.getVersion], .bailMajorMismatch) ∧
    buildAPI false (.ok "2.99.99") "2.0.0" "3.0.0" = ([.getVersion], .ok) := by
  refine ⟨?_, by decide, by decide, by decide, by decide⟩
  intro v
  obtain ⟨ma, mi, pa⟩ := v
  have hlt := semLT_iff_specLt ⟨ma, mi, pa⟩ ⟨2, 0, 0⟩
  have hge := semGTE_iff_specLe ⟨ma, mi, pa⟩ ⟨3, 0, 0⟩
  unfold versionGate
  split_ifs with h1 h2 <;>
    simp_all [specLe, specLt] <;>
    omega

/-- C3: `CleanVersion` strips any leading `v` and discards everything from
the first `-` onward before parsing as a semantic version;
`CleanVersion "v2.99.10-abcde-dirty"` is 2.99.10 and `CleanVersion "2.0.0"`
is 2.0.0. -/
theorem C3_cleanVersion_normalization :
    CleanVersion "v2.99.10-abcde-dirty" = some ⟨2, 99, 10⟩ ∧
    CleanVersion "2.0.0" = some ⟨2, 0, 0⟩ ∧
    (∀ s : List Char, cleanVersionL ('v' :: s) = cleanVersionL s) ∧
    (∀ s rest : List Char, '-' ∉ s →
      cleanVersionL (s ++ '-' :: rest) = cleanVersionL s) :=
  ⟨by decide, by decide, cleanVersionL_v_cons, cleanVersionL_dash⟩

/-- Witness for C3 at a concrete input: the dash-discarding conjunct applied
to the version core `2.5.0` with suffix `rc`. -/
theorem C3_witness :
    ('-' ∉ ['2', '.', '5', '.', '0']) ∧
      cleanVersionL (['2', '.', '5', '.', '0'] ++ '-' :: ['r', 'c']) =
        cleanVersionL ['2', '.', '5', '.', '0'] :=
  ⟨by decide,
    C3_cleanVersion_normalization.2.2.2 ['2', '.', '5', '.', '0'] ['r', 'c']
      (by decide)⟩

/-- C10: `CleanVersion` is partial: on any input whose first dash-separated
segment, after trimming leading `v`s, is not a valid semantic version (for
example the empty string), it panics via `MustParse` (modelled as `none`)
instead of returning an error, so client construction against a server
reporting such a version aborts by panic rather than through the error
(bail) path. -/
theorem C10_cleanVersion_partiality :
    CleanVersion "" = none ∧
    (∀ s : List Char,
      parseSemVer ((s.dropWhile isV).takeWhile notDash) = none →
        cleanVersionL s = none) ∧
    (∀ v : String, CleanVersion v = none →
      (buildAPI false (.ok v) "2.0.0" "3.0.0").2 = .panicked) ∧
    buildAPI false (.ok "") "2.0.0" "3.0.0" = ([.getVersion], .panicked) := by
  refine ⟨by decide, fun s h => h, ?_, by decide⟩
  intro v h
  simp only [buildAPI]
  rw [h]
  rfl

/-- Witness for C10 at the concrete input `""`: parsing fails and client
construction panics rather than bailing. -/
theorem C10_witness :
    (CleanVersion "" = none ∧
      (buildAPI false (.ok "") "2.0.0" "3.0.0").2 = .panicked) :=
  ⟨by decide, C10_cleanVersion_partiality.2.2.1 "" (by decide)⟩

/-- C9 counterexample: with the version check disabled, client construction
still calls the version endpoint — the claim that no such call is performed
is false at this concrete input. -/
theorem C9_counterexample :
    APICall.getVersion ∈ (buildAPI true (.ok "2.5.0") "2.0.0" "3.0.0").1 ∧
    (buildAPI true (.ok "2.5.0") "2.0.0" "3.0.0").1 = [APICall.getVersion] := by
  constructor
  · decide
  · decide

/-- C9 amended: client construction always calls the version endpoint, even
when the version check is disabled (a transport failure there still bails);
when disabled it returns right after that call, so the reported version is
never parsed and construction never fails for a version-related reason; the
compatibility gate is applied only when the check is not disabled. -/
theorem C9_amended :
    (∀ (r : Except String String) (minS maxS : String),
      (buildAPI true r minS maxS).1 = [APICall.getVersion]) ∧
    (∀ (v minS maxS : String),
      (buildAPI true (.ok v) minS maxS).2 = .ok) ∧
    (∀ (e : String) (minS maxS : String),
      (buildAPI true (.error e) minS maxS).2 = .bailTransport e) ∧
    (∀ v : String,
      (buildAPI false (.ok v) "2.0.0" "3.0.0").2 = .ok ↔
        ∃ sem, CleanVersion v = some sem ∧
          versionGate sem ⟨2, 0, 0⟩ ⟨3, 0, 0⟩ = .ok) := by
  refine ⟨fun r minS maxS => rfl, fun v minS maxS => rfl,
    fun e minS maxS => rfl, ?_⟩
  intro v
  simp only [buildAPI]
  cases h : CleanVersion v with
  | none => simp [h]
  | some sem =>
    rw [show CleanVersion "2.0.0" = some ⟨2, 0, 0⟩ from by decide,
      show CleanVersion "3.0.0" = some ⟨3, 0, 0⟩ from by decide]
    cases hg : versionGate sem ⟨2, 0, 0⟩ ⟨3, 0, 0⟩ <;> simp [hg]

/-! ## HTTP client wrapper and rack-role accessors (`pkg/conch`) -/

/-- Go's `uuid.UUID` (a 16-byte value), embedded as a `Nat` with `0` as the
zero UUID; `uuidString` stands for `UUID.String()` (any injective rendering
serves the claims, which only compare paths built from it). -/
structure UUID where
  val : Nat
deriving DecidableEq, Repr

/-- The zero value `uuid.UUID{}`. -/
def zeroUUID : UUID := ⟨0⟩

/-- `UUID.String()`. -/
def uuidString (u : UUID) : String := toString u.val

/-- `uuid.Equal`. -/
def uuidEqual (a b : UUID) : Bool := a = b

/-- The structured error body of a failed API call (`conch.APIError`), with
its message field (`ErrorMsg` in the tests). -/
structure APIError where
  errorMsg : String
deriving DecidableEq, Repr

/-- Errors surfaced by the client library: the generic error built from an
`APIError` message, an underlying transport error returned unchanged, and
`conch.ErrBadInput`. -/
inductive ConchError where
  | apiError (msg : String)
  | transport (e : String)
  | badInput
deriving DecidableEq, Repr

/-- A server response as observed through `sling`'s
`Receive(success, failure)`: HTTP status, the decoded success body when the
response is 2xx, and the decoded `APIError` message when it is not. -/
structure HTTPResponse (α : Type) where
  status : Nat
  okBody : Option α
  errBody : Option String

/-- Success statuses: the 2xx range. -/
def is2xx (status : Nat) : Bool := 200 ≤ status && status < 300

/-- Modelled from the spec: `Conch.isHTTPResOk` (pkg/conch; called by every
accessor under `src/` but its own body is not under `src/`): "On a non-2xx
response, deserialize the body into the APIError shape and return a generic
error constructed from its message. On transport failure, return the
underlying transport error unchanged." Nothing is returned on a 2xx
response. -/
def isHTTPResOk (status : Nat) (transportErr : Option String)
    (aerr : APIError) : Option ConchError :=
  match transportErr with
  | some e => some (.transport e)
  | none => if is2xx status then none else some (.apiError aerr.errorMsg)

/-- `sling`'s `Receive` filling the success receiver: the decoded body on a
2xx response, the receiver's initial value otherwise. -/
def receiveBody {α : Type} (resp : HTTPResponse α) (init : α) : α :=
  if is2xx resp.status then resp.okBody.getD init else init

/-- `sling`'s `Receive` filling the failure receiver (initially the empty
`APIError`): the decoded error body on a non-2xx response. -/
def receiveAPIError {α : Type} (resp : HTTPResponse α) : APIError :=
  if is2xx resp.status then ⟨""⟩ else ⟨resp.errBody.getD ""⟩

/-- `conch.GlobalRackRole`: the fields used by the embedded accessors
(`ID`, `Name`, `RackSize`). -/
structure GlobalRackRole where
  id : UUID
  name : String
  rackSize : Int
deriving DecidableEq, Repr

/-- `GetGlobalRackRoles` (part_001 lines 16-23): start from an empty list,
`Receive` into it, and return it together with `isHTTPResOk`'s verdict. -/
def GetGlobalRackRoles (resp : HTTPResponse (List GlobalRackRole))
    (transportErr : Option String) :
    List GlobalRackRole × Option ConchError :=
  (receiveBody resp [],
    isHTTPResOk resp.status transportErr (receiveAPIError resp))

/-- Modelled from the spec: `conch.HardwareVendor` is declared outside
`src/`; `TestHardwareVendorErrors` uses its `Name` field and compares
against the zero value `conch.HardwareVendor{}`. -/
structure HardwareVendor where
  id : UUID
  name : String
deriving DecidableEq, Repr

/-- The zero value `conch.HardwareVendor{}`. -/
def emptyHardwareVendor : HardwareVendor := ⟨zeroUUID, ""⟩

/-- Modelled from the spec: `GetHardwareVendor` (pkg/conch, not under
`src/`; exercised at part_000 lines 313-320): fetch one vendor by name into
a zero-value receiver and return it together with `isHTTPResOk`'s
verdict. -/
def GetHardwareVendor (resp : HTTPResponse HardwareVendor)
    (transportErr : Option String) : HardwareVendor × Option ConchError :=
  (receiveBody resp emptyHardwareVendor,
    isHTTPResOk resp.status transportErr (receiveAPIError resp))

/-- HTTP verbs used by the embedded accessors. -/
inductive Verb where
  | get
  | post
  | delete
deriving DecidableEq, Repr

/-- A request as assembled by an accessor: verb, path, and the JSON body as
ordered key/value pairs (numbers rendered as strings). -/
structure HTTPRequest where
  verb : Verb
  path : String
  body : List (String × String)
deriving DecidableEq, Repr

/-- `SaveGlobalRackRole` (part_001 lines 38-77), up to the point a request
is issued: the required-field checks return `ErrBadInput` with no request
issued — the role is returned unchanged, since the source mutates it only
from the server's response to an issued request; otherwise a zero `ID`
produces a POST to the collection endpoint `/rack_role` with a
`{name, rack_size}` body, and a non-zero `ID` a POST to the item endpoint
`/rack_role/{id}` with an `{id, name, rack_size}` body. -/
def SaveGlobalRackRole (r : GlobalRackRole) :
    GlobalRackRole × Option HTTPRequest × Option ConchError :=
  if r.name = "" then (r, none, some .badInput)
  else if r.rackSize = 0 then (r, none, some .badInput)
  else if uuidEqual r.id zeroUUID then
    (r, some ⟨.post, "/rack_role",
      [("name", r.name), ("rack_size", toString r.rackSize)]⟩, none)
  else
    (r, some ⟨.post, "/rack_role/" ++ uuidString r.id,
      [("id", uuidString r.id), ("name", r.name),
        ("rack_size", toString r.rackSize)]⟩, none)

/-! ## Claim theorems: accessors and error handling -/

/-- C1: for every accessor call whose HTTP response has a non-2xx status
and carries a structured error body, the accessor returns an error whose
message equals the body's message field, together with the zero value of
the entity type: `GetGlobalRackRoles` returns the entity-free list and
`GetHardwareVendor` the empty `HardwareVendor`. -/
theorem C1_error_unpacking :
    (∀ (resp : HTTPResponse (List GlobalRackRole)) (m : String),
      is2xx resp.status = false → resp.errBody = some m →
        GetGlobalRackRoles resp none = ([], some (.apiError m))) ∧
    (∀ (resp : HTTPResponse HardwareVendor) (m : String),
      is2xx resp.status = false → resp.errBody = some m →
        GetHardwareVendor resp none = (emptyHardwareVendor, some (.apiError m))) := by
  constructor <;>
    · intro resp m h hm
      simp [GetGlobalRackRoles, GetHardwareVendor, receiveBody,
        receiveAPIError, isHTTPResOk, h, hm]

/-- Witness for C1 at the concrete response of `TestHardwareVendorErrors`:
status 400 with error body "totally broken". -/
theorem C1_witness :
    (is2xx 400 = false ∧
      GetGlobalRackRoles ⟨400, none, some "totally broken"⟩ none =
        ([], some (.apiError "totally broken"))) ∧
    GetHardwareVendor ⟨400, none, some "totally broken"⟩ none =
      (emptyHardwareVendor, some (.apiError "totally broken")) :=
  ⟨⟨by decide,
      C1_error_unpacking.1 ⟨400, none, some "totally broken"⟩ "totally broken"
        (by decide) rfl⟩,
    C1_error_unpacking.2 ⟨400, none, some "totally broken"⟩ "totally broken"
      (by decide) rfl⟩

/-- C4: for every rack role with non-empty `Name` and non-zero `RackSize`,
`SaveGlobalRackRole` with a zero UUID issues a POST to the collection
endpoint `/rack_role`, with a non-zero UUID a POST to the item endpoint
`/rack_role/{id}`, and any request it issues is one of those two POSTs. -/
theorem C4_save_routing :
    ∀ r : GlobalRackRole, r.name ≠ "" → r.rackSize ≠ 0 →
      (r.id = zeroUUID →
        (SaveGlobalRackRole r).2.1 = some ⟨.post, "/rack_role",
          [("name", r.name), ("rack_size", toString r.rackSize)]⟩) ∧
      (r.id ≠ zeroUUID →
        (SaveGlobalRackRole r).2.1 = some ⟨.post,
          "/rack_role/" ++ uuidString r.id,
          [("id", uuidString r.id), ("name", r.name),
            ("rack_size", toString r.rackSize)]⟩) ∧
      (∀ req, (SaveGlobalRackRole r).2.1 = some req →
        req.verb = .post ∧
          (req.path = "/rack_role" ∨
            req.path = "/rack_role/" ++ uuidString r.id)) := by
  intro r hn hs
  by_cases hz : r.id = zeroUUID
  · refine ⟨fun _ => ?_, fun h => absurd hz h, ?_⟩
    · simp [SaveGlobalRackRole, hn, hs, uuidEqual, hz]
    · intro req hreq
      simp [SaveGlobalRackRole, hn, hs, uuidEqual, hz] at hreq
      simp [← hreq]
  · refine ⟨fun h => absurd h hz, fun _ => ?_, ?_⟩
    · simp [SaveGlobalRackRole, hn, hs, uuidEqual, hz]
    · intro req hreq
      simp [SaveGlobalRackRole, hn, hs, uuidEqual, hz] at hreq
      simp [← hreq]

/-- Witness for C4 at concrete roles: a zero-UUID role goes to the
collection endpoint, a non-zero-UUID role to its item endpoint. -/
theorem C4_witness :
    (SaveGlobalRackRole ⟨⟨0⟩, "sr", 45⟩).2.1 =
      some ⟨.post, "/rack_role", [("name", "sr"), ("rack_size", "45")]⟩ ∧
    (SaveGlobalRackRole ⟨⟨7⟩, "sr", 45⟩).2.1 =
      some ⟨.post, "/rack_role/7",
        [("id", "7"), ("name", "sr"), ("rack_size", "45")]⟩ := by
  constructor
  · have h := (C4_save_routing ⟨⟨0⟩, "sr", 45⟩ (by decide) (by decide)).1 rfl
    simpa using h
  · have h := (C4_save_routing ⟨⟨7⟩, "sr", 45⟩ (by decide) (by decide)).2.1
      (by decide)
    simpa using h

/-- C8: for every rack role whose `Name` is empty or whose `RackSize` is
zero, `SaveGlobalRackRole` returns `ErrBadInput` immediately: no request is
issued and the passed entity is returned unchanged. -/
theorem C8_save_bad_input :
    ∀ r : GlobalRackRole, r.name = "" ∨ r.rackSize = 0 →
      SaveGlobalRackRole r = (r, none, some .badInput) := by
  intro r h
  rcases h with h | h <;> simp [SaveGlobalRackRole, h]

/-- Witness for C8 at concrete roles: an empty name and a zero rack size
each short-circuit to `ErrBadInput`. -/
theorem C8_witness :
    SaveGlobalRackRole ⟨⟨3⟩, "", 12⟩ = (⟨⟨3⟩, "", 12⟩, none, some .badInput) ∧
    SaveGlobalRackRole ⟨⟨3⟩, "sr", 0⟩ = (⟨⟨3⟩, "sr", 0⟩, none, some .badInput) :=
  ⟨C8_save_bad_input ⟨⟨3⟩, "", 12⟩ (Or.inl rfl),
    C8_save_bad_input ⟨⟨3⟩, "sr", 0⟩ (Or.inr rfl)⟩

/-! ## Rack-layout import (`rackImportLayout`, src/pkg/conch/user.go) -/

/-- `conch.HardwareProduct`: the fields used by the import (`ID`, `Name`,
`Alias`). -/
structure HardwareProduct where
  id : UUID
  name : String
  aliasName : String
deriving DecidableEq, Repr

/-- `importLayoutSlot` (user.go lines 760-765). -/
structure ImportLayoutSlot where
  ruStart : Int
  productID : UUID
  productName : String
  productAlias : String
deriving DecidableEq, Repr

/-- `conch.RackLayoutSlot`: the fields used by the import (`ID` of existing
slots for deletion; `RackID`, `ProductID`, `RUStart` for new slots). -/
structure RackLayoutSlot where
  id : UUID
  rackID : UUID
  productID : UUID
  ruStart : Int
deriving DecidableEq, Repr

/-- The lookup maps of user.go lines 862-870, built by inserting every
product under a key: a later product with the same key overwrites an
earlier one (Go map semantics), hence the lookup finds the last match. -/
def mapLookup (key : HardwareProduct → String) (ps : List HardwareProduct)
    (k : String) : Option HardwareProduct :=
  ps.reverse.find? (fun p => key p = k)

/-- The `productsName` map keyed by `Name`. -/
def productsName (ps : List HardwareProduct) (k : String) :
    Option HardwareProduct :=
  mapLookup (fun p => p.name) ps k

/-- The `productsAlias` map keyed by `Alias`. -/
def productsAlias (ps : List HardwareProduct) (k : String) :
    Option HardwareProduct :=
  mapLookup (fun p => p.aliasName) ps k

/-- The `productsID` map keyed by `ID.String()`. -/
def productsID (ps : List HardwareProduct) (k : String) :
    Option HardwareProduct :=
  mapLookup (fun p => uuidString p.id) ps k

/-- Bail message of user.go lines 887-897. -/
def noProductMsg (ru : Int) : String :=
  "ru_start " ++ toString ru ++
    " entry does not have a product id, name, or alias"

/-- Bail message of user.go line 902. -/
def unknownProductMsg (id : UUID) : String :=
  "Product ID " ++ uuidString id ++ " is unknown"

/-- One iteration of the validation loop (user.go lines 874-912): a slot
with a zero product UUID resolves through the name map when a name is
present, else through the alias map when an alias is present, else bails;
if the UUID is still zero after resolution it bails. A slot with a non-zero
product UUID bails unless the ID is in the `productsID` map. -/
def resolveSlot (ps : List HardwareProduct) (rackID : UUID)
    (l : ImportLayoutSlot) : Except String RackLayoutSlot :=
  if uuidEqual l.productID zeroUUID then
    if l.productName ≠ "" then
      let pid := match productsName ps l.productName with
        | some p => p.id
        | none => l.productID
      if uuidEqual pid zeroUUID then .error (noProductMsg l.ruStart)
      else .ok ⟨zeroUUID, rackID, pid, l.ruStart⟩
    else if l.productAlias ≠ "" then
      let pid := match productsAlias ps l.productAlias with
        | some p => p.id
        | none => l.productID
      if uuidEqual pid zeroUUID then .error (noProductMsg l.ruStart)
      else .ok ⟨zeroUUID, rackID, pid, l.ruStart⟩
    else .error (noProductMsg l.ruStart)
  else
    match productsID ps (uuidString l.productID) with
    | none => .error (unknownProductMsg l.productID)
    | some _ => .ok ⟨zeroUUID, rackID, l.productID, l.ruStart⟩

/-- The whole validation loop: the `finalLayout` accumulated slot by slot,
bailing at the first failing slot. -/
def buildFinalLayout (ps : List HardwareProduct) (rackID : UUID) :
    List ImportLayoutSlot → Except String (List RackLayoutSlot)
  | [] => .ok []
  | l :: rest =>
    match resolveSlot ps rackID l with
    | .error e => .error e
    | .ok s =>
      match buildFinalLayout ps rackID rest with
      | .error e => .error e
      | .ok t => .ok (s :: t)

/-- The mutating API calls the import can issue. -/
inductive RackEffect where
  | deleteSlot (id : UUID)
  | saveSlot (s : RackLayoutSlot)
deriving DecidableEq, Repr

/-- `rackImportLayout`'s action (user.go lines 817-936) from the point the
imported layout, the rack, the existing layout and the product list are in
hand: bail when a layout exists and `--overwrite` was not given; validate
every slot (bailing with no effects on the first failure); then issue the
overwrite deletions followed by the saves. The first component is the
sequence of mutating calls issued, the second the bail message if any. -/
def rackImportLayout (overwrite : Bool) (rackID : UUID)
    (existingLayout : List RackLayoutSlot) (products : List HardwareProduct)
    (importedLayout : List ImportLayoutSlot) :
    List RackEffect × Option String :=
  if 0 < existingLayout.length ∧ ¬overwrite then
    ([], some "rack already has a layout. Use --overwrite to overwrite")
  else
    match buildFinalLayout products rackID importedLayout with
    | .error e => ([], some e)
    | .ok finalLayout =>
      ((if overwrite then
          existingLayout.map (fun s => RackEffect.deleteSlot s.id)
        else []) ++ finalLayout.map RackEffect.saveSlot, none)

theorem resolveSlot_error_of_unmatched (ps : List HardwareProduct)
    (rackID : UUID) (l : ImportLayoutSlot)
    (hz : uuidEqual l.productID zeroUUID = true)
    (h : (l.productName ≠ "" ∧ productsName ps l.productName = none) ∨
      (l.productName = "" ∧ l.productAlias ≠ "" ∧
        productsAlias ps l.productAlias = none)) :
    resolveSlot ps rackID l = .error (noProductMsg l.ruStart) := by
  rcases h with ⟨hn, hl⟩ | ⟨hn, ha, hl⟩
  · simp [resolveSlot, hz, hn, hl]
  · simp [resolveSlot, hz, hn, ha, hl]

theorem buildFinalLayout_error_of_mem (ps : List HardwareProduct)
    (rackID : UUID) (imported : List ImportLayoutSlot)
    (l : ImportLayoutSlot) (hmem : l ∈ imported) (e : String)
    (herr : resolveSlot ps rackID l = .error e) :
    ∃ e', buildFinalLayout ps rackID imported = .error e' := by
  induction imported with
  | nil => cases hmem
  | cons hd tl ih =>
    rcases List.mem_cons.mp hmem with rfl | hmem'
    · exact ⟨e, by simp [buildFinalLayout, herr]⟩
    · cases hhd : resolveSlot ps rackID hd with
      | error e2 => exact ⟨e2, by simp [buildFinalLayout, hhd]⟩
      | ok s =>
        obtain ⟨e', he'⟩ := ih hmem'
        exact ⟨e', by simp [buildFinalLayout, hhd, he']⟩

/-- C5: if any imported slot has a zero product UUID and a product name (or
alias) matching no product in the server's product list, the import fails
with no mutating call issued — no `SaveRackLayoutSlot` and no overwrite
deletion; and whenever the import does issue calls, the whole imported list
was validated first (the saves are the fully validated `finalLayout`). -/
theorem C5_validate_before_act :
    (∀ (overwrite : Bool) (rackID : UUID)
      (existing : List RackLayoutSlot) (products : List HardwareProduct)
      (imported : List ImportLayoutSlot) (l : ImportLayoutSlot),
      l ∈ imported →
      uuidEqual l.productID zeroUUID = true →
      ((l.productName ≠ "" ∧ productsName products l.productName = none) ∨
        (l.productName = "" ∧ l.productAlias ≠ "" ∧
          productsAlias products l.productAlias = none)) →
      (rackImportLayout overwrite rackID existing products imported).1 = [] ∧
        (rackImportLayout overwrite rackID existing products imported).2.isSome
          = true) ∧
    (∀ (overwrite : Bool) (rackID : UUID)
      (existing : List RackLayoutSlot) (products : List HardwareProduct)
      (imported : List ImportLayoutSlot),
      (rackImportLayout overwrite rackID existing products imported).2 = none →
      ∃ finalLayout,
        buildFinalLayout products rackID imported = .ok finalLayout ∧
        (rackImportLayout overwrite rackID existing products imported).1 =
          (if overwrite then
            existing.map (fun s => RackEffect.deleteSlot s.id)
          else []) ++ finalLayout.map RackEffect.saveSlot) := by
  constructor
  · intro overwrite rackID existing products imported l hmem hz hres
    have herr := resolveSlot_error_of_unmatched products rackID l hz hres
    obtain ⟨e', he'⟩ :=
      buildFinalLayout_error_of_mem products rackID imported l hmem _ herr
    unfold rackImportLayout
    split_ifs with h1 <;> simp [he']
  · intro overwrite rackID existing products imported hnone
    by_cases h1 : 0 < existing.length ∧ ¬overwrite = true
    · simp [rackImportLayout, h1] at hnone
    · have h1' : ¬(0 < existing.length ∧ overwrite = false) := by
        simpa using h1
      cases hb : buildFinalLayout products rackID imported with
      | error e => simp [rackImportLayout, h1', hb] at hnone
      | ok fl => exact ⟨fl, rfl, by simp [rackImportLayout, h1', hb]⟩

/-- Witness for C5 at a concrete import: one slot with a zero product UUID
and an unknown product name, against a rack with an existing layout and
`--overwrite` given; no deletion and no save is issued. -/
theorem C5_witness :
    (⟨(0 : Int), ⟨0⟩, "missing-product", ""⟩ : ImportLayoutSlot) ∈
        [(⟨(0 : Int), ⟨0⟩, "missing-product", ""⟩ : ImportLayoutSlot)] ∧
    (rackImportLayout true ⟨5⟩ [⟨⟨9⟩, ⟨5⟩, ⟨1⟩, 0⟩]
        [⟨⟨1⟩, "p1", "a1"⟩]
        [⟨(0 : Int), ⟨0⟩, "missing-product", ""⟩]).1 = [] ∧
    (rackImportLayout true ⟨5⟩ [⟨⟨9⟩, ⟨5⟩, ⟨1⟩, 0⟩]
        [⟨⟨1⟩, "p1", "a1"⟩]
        [⟨(0 : Int), ⟨0⟩, "missing-product", ""⟩]).2.isSome = true := by
  refine ⟨by decide, ?_⟩
  have h := C5_validate_before_act.1 true ⟨5⟩ [⟨⟨9⟩, ⟨5⟩, ⟨1⟩, 0⟩]
    [⟨⟨1⟩, "p1", "a1"⟩] [⟨(0 : Int), ⟨0⟩, "missing-product", ""⟩]
    ⟨(0 : Int), ⟨0⟩, "missing-product", ""⟩ (by decide) (by decide)
    (Or.inl ⟨by decide, by decide⟩)
  exact h

/-! ## Device output (`DisplayDevices`, part_002; `TableizeMinimalDevices`,
pkg/util/util.go)

Go `time.Time` / `pgtime.PgTime` values are embedded as abstract instants
(`Nat`), with `0` the zero time (`IsZero`); `.UTC()` and `.Local()` change
the rendering zone, not the instant, so they are identities here. -/

/-- Abstraction of `TimeStr` (`t.Local().Format(DateFormat)`): a rendering
that is a function of the instant and is never the empty string — Go's
`DateFormat` always renders a full date, and the zero time renders as the
formatted zero date (year 0001), not as a blank. -/
def TimeStr (t : Nat) : String := "0001-01-01x" ++ toString t

theorem TimeStr_ne_empty (t : Nat) : TimeStr t ≠ "" := by
  intro h
  have hl := congrArg String.length h
  simp [TimeStr, String.length_append] at hl
  exact absurd hl.1 (by decide)

/-- The location fields of a device read by `DisplayDevices` in full-output
mode (`Location.Room.AZ`, `Location.Rack.Name`, and the datacenter name
used by the older variant). -/
structure DeviceLocation where
  roomAZ : String
  rackName : String
  datacenterName : String
deriving DecidableEq, Repr

/-- `conch.Device`: the fields used by `DisplayDevices` (part_002 lines
815-945). -/
structure Device where
  id : String
  assetTag : String
  created : Nat
  lastSeen : Nat
  health : String
  graduated : Nat
  validated : Nat
  phase : String
  location : DeviceLocation
deriving DecidableEq, Repr

/-- A serialized JSON field value: a string or a timestamp. -/
inductive JsonVal where
  | str (s : String)
  | time (t : Nat)
deriving DecidableEq, Repr

/-- The condensed JSON projection of `DisplayDevices` (part_002 lines
845-866): the anonymous struct with exactly these JSON keys, in source
order. -/
def condensedDeviceJSON (d : Device) : List (String × JsonVal) :=
  [("id", .str d.id), ("asset_tag", .str d.assetTag),
    ("created", .time d.created), ("last_seen", .time d.lastSeen),
    ("health", .str d.health), ("graduated", .time d.graduated),
    ("validated", .time d.validated), ("phase", .str d.phase)]

/-- What `DisplayDevices` hands to `JSONOut` in JSON mode. -/
inductive DevicesJSON where
  | full (ds : List Device)
  | condensed (rows : List (List (String × JsonVal)))
deriving DecidableEq, Repr

/-- The JSON branch of `DisplayDevices` (part_002 lines 836-870): full
entities when `fullOutput`, else the condensed projection of each
device. -/
def displayDevicesJSON (devices : List Device) (fullOutput : Bool) :
    DevicesJSON :=
  if fullOutput then .full devices
  else .condensed (devices.map condensedDeviceJSON)

/-- One table row of the table branch of `DisplayDevices` (part_002 lines
900-940): `Validated`, `Graduated` and `LastSeen` render blank when zero,
`Created` is always passed through `TimeStr`. -/
def deviceTableRow (d : Device) (fullOutput : Bool) : List String :=
  let validated := if ¬ d.validated = 0 then TimeStr d.validated else ""
  let graduated := if ¬ d.graduated = 0 then TimeStr d.graduated else ""
  let lastSeen := if ¬ d.lastSeen = 0 then TimeStr d.lastSeen else ""
  if fullOutput then
    [d.location.roomAZ, d.location.rackName, d.id, d.assetTag,
      TimeStr d.created, lastSeen, d.health, validated, graduated, d.phase]
  else
    [d.id, d.assetTag, TimeStr d.created, lastSeen, d.health, validated,
      graduated, d.phase]

/-- `util.MinimalDevice` (pkg/util/util.go lines 59-68). -/
structure MinimalDevice where
  id : String
  assetTag : String
  created : Nat
  lastSeen : Nat
  health : String
  flags : String
  az : String
  rack : String
deriving DecidableEq, Repr

/-- One table row of `TableizeMinimalDevices` (pkg/util/util.go lines
160-213): `LastSeen` renders blank when zero, `Created` is always passed
through `TimeStr`. -/
def tableizeMinimalDeviceRow (d : MinimalDevice) (fullOutput : Bool) :
    List String :=
  let lastSeen := if ¬ d.lastSeen = 0 then TimeStr d.lastSeen else ""
  if fullOutput then
    [d.az, d.rack, d.id, d.assetTag, TimeStr d.created, lastSeen, d.health,
      d.flags]
  else
    [d.id, d.assetTag, TimeStr d.created, lastSeen, d.health, d.flags]

/-! ## Claim theorems: output formatting -/

/-- C6 counterexample: a device whose `Created` is the zero time renders
the formatted zero date in the Created column, not a blank cell — the claim
that every zero timestamp column (including Created) renders blank is false
at this concrete device, in both table renderers. -/
theorem C6_counterexample :
    (deviceTableRow ⟨"d1", "", 0, 0, "fail", 0, 0, "", ⟨"", "", ""⟩⟩
        false).get? 2 = some (TimeStr 0) ∧
    TimeStr 0 ≠ "" ∧
    (tableizeMinimalDeviceRow ⟨"d1", "", 0, 0, "fail", "", "", ""⟩
        false).get? 2 = some (TimeStr 0) := by
  refine ⟨by decide, by decide, by decide⟩

/-- C6 amended: in table device output the LastSeen, Validated and
Graduated columns render as blank cells when their value is the zero time
(in both condensed and full rows, and in `TableizeMinimalDevices`), but the
Created column is always rendered through the date formatter — a zero
Created renders as the formatted zero date, never blank. -/
theorem C6_amended :
    (∀ d : Device,
      (d.lastSeen = 0 → (deviceTableRow d false).get? 3 = some "") ∧
      (d.validated = 0 → (deviceTableRow d false).get? 5 = some "") ∧
      (d.graduated = 0 → (deviceTableRow d false).get? 6 = some "") ∧
      (deviceTableRow d false).get? 2 = some (TimeStr d.created) ∧
      (d.lastSeen = 0 → (deviceTableRow d true).get? 5 = some "") ∧
      (d.validated = 0 → (deviceTableRow d true).get? 7 = some "") ∧
      (d.graduated = 0 → (deviceTableRow d true).get? 8 = some "") ∧
      (deviceTableRow d true).get? 4 = some (TimeStr d.created)) ∧
    (∀ m : MinimalDevice,
      (m.lastSeen = 0 → (tableizeMinimalDeviceRow m false).get? 3 = some "") ∧
      (tableizeMinimalDeviceRow m false).get? 2 = some (TimeStr m.created)) ∧
    (∀ t : Nat, TimeStr t ≠ "") := by
  refine ⟨?_, ?_, TimeStr_ne_empty⟩
  · intro d
    refine ⟨fun h => ?_, fun h => ?_, fun h => ?_, ?_, fun h => ?_,
      fun h => ?_, fun h => ?_, ?_⟩ <;>
      simp [deviceTableRow, *]
  · intro m
    refine ⟨fun h => ?_, ?_⟩ <;> simp [tableizeMinimalDeviceRow, *]

/-- Witness for C6 (amended) at a concrete device: zero LastSeen renders
blank while the non-zero Created renders through the formatter. -/
theorem C6_witness :
    (deviceTableRow ⟨"d2", "t", 7, 0, "pass", 0, 0, "p", ⟨"", "", ""⟩⟩
        false).get? 3 = some "" ∧
    (deviceTableRow ⟨"d2", "t", 7, 0, "pass", 0, 0, "p", ⟨"", "", ""⟩⟩
        false).get? 2 = some (TimeStr 7) :=
  ⟨((C6_amended.1 ⟨"d2", "t", 7, 0, "pass", 0, 0, "p", ⟨"", "", ""⟩⟩).1 rfl),
    ((C6_amended.1 ⟨"d2", "t", 7, 0, "pass", 0, 0, "p", ⟨"", "", ""⟩⟩).2.2.2.1)⟩

/-- C7: in JSON mode with full-detail false, each device serializes to
exactly the condensed projection's fixed field set — keys id, asset_tag,
created, last_seen, health, graduated, validated, phase, in source order —
and all other fields of the `Device` record (its location) are omitted even
when populated. -/
theorem C7_condensed_projection :
    (∀ devices : List Device,
      displayDevicesJSON devices false =
        .condensed (devices.map condensedDeviceJSON)) ∧
    (∀ d : Device, (condensedDeviceJSON d).map Prod.fst =
      ["id", "asset_tag", "created", "last_seen", "health", "graduated",
        "validated", "phase"]) ∧
    (∀ (d : Device) (loc : DeviceLocation),
      condensedDeviceJSON { d with location := loc } =
        condensedDeviceJSON d) :=
  ⟨fun _ => rfl, fun _ => rfl, fun _ _ => rfl⟩
